import Mathlib

/-!
Verification of the PostKit CurlShims layer
(src/PostKit/PostKit/Services/CurlShims/CurlShims.c and its header
include/CurlShims.h).

The repository consists of nine type-specialized C forwarding functions.
Seven wrap the variadic `curl_easy_setopt` (for long, string, void
pointer, curl_off_t, and three callback function-pointer shapes) and two
wrap the variadic `curl_easy_getinfo` (for double and long destinations).
Each body is a single `return` of the delegated call with the arguments
passed through unchanged.

Embedding choices:
- C addresses (`CURL *` handles, `const char *`, `void *`, function
  pointers, destination pointers) are modelled as `Nat` (0 is NULL);
  `long` and `curl_off_t` values as `Int`; `CURLoption`, `CURLINFO` and
  `CURLcode` as `Nat`.  This layer never computes on any of these
  values, it only passes them along, so value representation is
  irrelevant to every statement below.
- The type-erased value handed to the variadic `...` slot of
  `curl_easy_setopt` is the sum type `VarArg`, one constructor per
  static C type the shims pass.
- The wrapped library is abstract: a `CurlLib W` gives the behavior of
  `curl_easy_setopt` and `curl_easy_getinfo` over an abstract world
  state `W` (which contains the library's session state and all of
  memory, in particular the cells a getinfo destination pointer names).
  A library call returns `none` when it does not terminate.
- Each shim function is translated from its one-line C body into the
  `Body` it executes: the single external call it performs, carrying
  exactly the argument values of the source line.  `exec` runs a body
  against a library behavior, an arbitrary shim-layer state `S`
  (CurlShims.c declares no global or static object, so the layer's own
  state is an opaque value the code never touches), and a world, and
  records the trace of external operations performed.  The `Event`
  vocabulary also names synchronization and shared-memory operations a
  C function could perform, so that their absence is a statement and
  not a typing accident.
-/

namespace PostKit.CurlShims

/-- The type-erased value passed through the variadic slot of
`curl_easy_setopt`, one constructor per static C type appearing in
CurlShims.c: `long`, `const char *`, `void *`, `curl_off_t`, the
write/header callback pointer type
`size_t (*)(char *, size_t, size_t, void *)`, and the progress callback
pointer type
`int (*)(void *, curl_off_t, curl_off_t, curl_off_t, curl_off_t)`. -/
inductive VarArg : Type
  | vLong (value : Int)
  | vConstCharPtr (addr : Nat)
  | vVoidPtr (addr : Nat)
  | vOffT (value : Int)
  | vWriteFnPtr (addr : Nat)
  | vProgressFnPtr (addr : Nat)
  deriving DecidableEq, Repr

/-- Observable external operations a C function in this layer could
perform.  The two call constructors are the delegated library calls the
source actually makes; the remaining constructors name synchronization,
blocking and shared-memory operations, so that their absence from every
trace can be proved rather than assumed. -/
inductive Event : Type
  | setoptCall (curl : Nat) (option : Nat) (arg : VarArg)
  | getinfoCall (curl : Nat) (info : Nat) (dest : Nat)
  | lockAcquire (lockAddr : Nat)
  | lockRelease (lockAddr : Nat)
  | blockWait (resource : Nat)
  | sharedRead (addr : Nat)
  | sharedWrite (addr : Nat) (value : Int)
  deriving DecidableEq, Repr

/-- An event is a delegated call into the wrapped library. -/
def Event.isDelegatedCall : Event → Bool
  | .setoptCall _ _ _ => true
  | .getinfoCall _ _ _ => true
  | _ => false

/-- An event is a synchronization, blocking, or shared-mutable-resource
operation. -/
def Event.isSyncOrShared : Event → Bool
  | .lockAcquire _ => true
  | .lockRelease _ => true
  | .blockWait _ => true
  | .sharedRead _ => true
  | .sharedWrite _ _ => true
  | _ => false

/-- Abstract behavior of the wrapped libcurl library over a world state
`W` (the library's internal session state together with all memory).
`easy_setopt curl option arg w` and `easy_getinfo curl info dest w`
return the `CURLcode` and the successor world, or `none` when the call
does not terminate.  The library is outside this repository, so it is a
parameter, not a definition. -/
structure CurlLib (W : Type) where
  easy_setopt : Nat → Nat → VarArg → W → Option (Nat × W)
  easy_getinfo : Nat → Nat → Nat → W → Option (Nat × W)

/-- The body of a CurlShims.c function: every function in the file is a
single `return` of one delegated call, so a body is exactly that call
with its argument values. -/
inductive Body : Type
  | retSetopt (curl : Nat) (option : Nat) (arg : VarArg)
  | retGetinfo (curl : Nat) (info : Nat) (dest : Nat)
  deriving DecidableEq, Repr

/-- `CURLcode curl_easy_setopt_long(CURL *curl, CURLoption option, long parameter)
\{ return curl_easy_setopt(curl, option, parameter); }` -/
def curl_easy_setopt_long (curl : Nat) (option : Nat) (parameter : Int) : Body :=
  .retSetopt curl option (.vLong parameter)

/-- `CURLcode curl_easy_setopt_string(CURL *curl, CURLoption option, const char *parameter)
\{ return curl_easy_setopt(curl, option, parameter); }` -/
def curl_easy_setopt_string (curl : Nat) (option : Nat) (parameter : Nat) : Body :=
  .retSetopt curl option (.vConstCharPtr parameter)

/-- `CURLcode curl_easy_setopt_pointer(CURL *curl, CURLoption option, void *parameter)
\{ return curl_easy_setopt(curl, option, parameter); }` -/
def curl_easy_setopt_pointer (curl : Nat) (option : Nat) (parameter : Nat) : Body :=
  .retSetopt curl option (.vVoidPtr parameter)

/-- `CURLcode curl_easy_setopt_int64(CURL *curl, CURLoption option, curl_off_t parameter)
\{ return curl_easy_setopt(curl, option, parameter); }` -/
def curl_easy_setopt_int64 (curl : Nat) (option : Nat) (parameter : Int) : Body :=
  .retSetopt curl option (.vOffT parameter)

/-- `CURLcode curl_easy_setopt_write_callback(CURL *curl, CURLoption option,
size_t (*callback)(char *ptr, size_t size, size_t nmemb, void *userdata))
\{ return curl_easy_setopt(curl, option, callback); }` -/
def curl_easy_setopt_write_callback (curl : Nat) (option : Nat) (callback : Nat) : Body :=
  .retSetopt curl option (.vWriteFnPtr callback)

/-- `CURLcode curl_easy_setopt_header_callback(CURL *curl, CURLoption option,
size_t (*callback)(char *ptr, size_t size, size_t nmemb, void *userdata))
\{ return curl_easy_setopt(curl, option, callback); }` -/
def curl_easy_setopt_header_callback (curl : Nat) (option : Nat) (callback : Nat) : Body :=
  .retSetopt curl option (.vWriteFnPtr callback)

/-- `CURLcode curl_easy_setopt_progress_callback(CURL *curl, CURLoption option,
int (*callback)(void *clientp, curl_off_t dltotal, curl_off_t dlnow, curl_off_t ultotal, curl_off_t ulnow))
\{ return curl_easy_setopt(curl, option, callback); }` -/
def curl_easy_setopt_progress_callback (curl : Nat) (option : Nat) (callback : Nat) : Body :=
  .retSetopt curl option (.vProgressFnPtr callback)

/-- `CURLcode curl_easy_getinfo_double(CURL *curl, CURLINFO info, double *value)
\{ return curl_easy_getinfo(curl, info, value); }` -/
def curl_easy_getinfo_double (curl : Nat) (info : Nat) (value : Nat) : Body :=
  .retGetinfo curl info value

/-- `CURLcode curl_easy_getinfo_long(CURL *curl, CURLINFO info, long *value)
\{ return curl_easy_getinfo(curl, info, value); }` -/
def curl_easy_getinfo_long (curl : Nat) (info : Nat) (value : Nat) : Body :=
  .retGetinfo curl info value

/-- The delegated library call a body performs, as the underlying
library itself answers it. -/
def delegate {W : Type} (lib : CurlLib W) (w : W) : Body → Option (Nat × W)
  | .retSetopt curl option arg => lib.easy_setopt curl option arg w
  | .retGetinfo curl info dest => lib.easy_getinfo curl info dest w

/-- The trace event recording the one delegated call of a body. -/
def callEvent : Body → Event
  | .retSetopt curl option arg => .setoptCall curl option arg
  | .retGetinfo curl info dest => .getinfoCall curl info dest

/-- Outcome of one terminating run of a shim function: the `CURLcode`
returned to the caller, the shim layer's own state afterwards, the
world afterwards, and the trace of external operations performed. -/
structure RunResult (S W : Type) where
  code : Nat
  shim : S
  world : W
  trace : List Event
  deriving DecidableEq, Repr

/-- Execute a shim function body: perform its single delegated call and
return that call's code.  The C file declares no global or static
object, so the shim-layer state `s` is never read or written; the run
does not terminate exactly when the delegated call does not. -/
def exec {S W : Type} (lib : CurlLib W) (s : S) (w : W) (b : Body) :
    Option (RunResult S W) :=
  (delegate lib w b).map fun cw => ⟨cw.1, s, cw.2, [callEvent b]⟩

/-- The C types appearing in the CurlShims.h signatures. -/
inductive CType : Type
  | curlHandlePtr
  | curlOption
  | curlInfo
  | curlCode
  | cLong
  | constCharPtr
  | voidPtr
  | curlOffT
  | writeCallbackPtr
  | progressCallbackPtr
  | doublePtr
  | longPtr
  deriving DecidableEq, Repr

/-- A C function declaration: name, return type, parameter types. -/
structure CDecl where
  name : String
  ret : CType
  params : List CType
  deriving DecidableEq, Repr

/-- The complete list of declarations of include/CurlShims.h, in file
order; the header declares nothing else. -/
def curlShimsHeaderDecls : List CDecl :=
  [ ⟨"curl_easy_setopt_long", .curlCode, [.curlHandlePtr, .curlOption, .cLong]⟩
  , ⟨"curl_easy_setopt_string", .curlCode, [.curlHandlePtr, .curlOption, .constCharPtr]⟩
  , ⟨"curl_easy_setopt_pointer", .curlCode, [.curlHandlePtr, .curlOption, .voidPtr]⟩
  , ⟨"curl_easy_setopt_int64", .curlCode, [.curlHandlePtr, .curlOption, .curlOffT]⟩
  , ⟨"curl_easy_setopt_write_callback", .curlCode, [.curlHandlePtr, .curlOption, .writeCallbackPtr]⟩
  , ⟨"curl_easy_setopt_header_callback", .curlCode, [.curlHandlePtr, .curlOption, .writeCallbackPtr]⟩
  , ⟨"curl_easy_setopt_progress_callback", .curlCode, [.curlHandlePtr, .curlOption, .progressCallbackPtr]⟩
  , ⟨"curl_easy_getinfo_double", .curlCode, [.curlHandlePtr, .curlInfo, .doublePtr]⟩
  , ⟨"curl_easy_getinfo_long", .curlCode, [.curlHandlePtr, .curlInfo, .longPtr]⟩ ]

/-- The complete list of function definitions of CurlShims.c, in file
order; the file defines nothing else and all nine have external
linkage. -/
def curlShimsSourceDefs : List CDecl :=
  [ ⟨"curl_easy_setopt_long", .curlCode, [.curlHandlePtr, .curlOption, .cLong]⟩
  , ⟨"curl_easy_setopt_string", .curlCode, [.curlHandlePtr, .curlOption, .constCharPtr]⟩
  , ⟨"curl_easy_setopt_pointer", .curlCode, [.curlHandlePtr, .curlOption, .voidPtr]⟩
  , ⟨"curl_easy_setopt_int64", .curlCode, [.curlHandlePtr, .curlOption, .curlOffT]⟩
  , ⟨"curl_easy_setopt_write_callback", .curlCode, [.curlHandlePtr, .curlOption, .writeCallbackPtr]⟩
  , ⟨"curl_easy_setopt_header_callback", .curlCode, [.curlHandlePtr, .curlOption, .writeCallbackPtr]⟩
  , ⟨"curl_easy_setopt_progress_callback", .curlCode, [.curlHandlePtr, .curlOption, .progressCallbackPtr]⟩
  , ⟨"curl_easy_getinfo_double", .curlCode, [.curlHandlePtr, .curlInfo, .doublePtr]⟩
  , ⟨"curl_easy_getinfo_long", .curlCode, [.curlHandlePtr, .curlInfo, .longPtr]⟩ ]

/-- Modelled from the spec: the exported interface the spec enumerates,
"one fixed-signature C-callable function per (operation, parameter-type)
pair": session-configuration entry points for long, string, generic
pointer, and 64-bit integer values, three callback-registration shapes
(data-write, header-write, progress), and information retrieval for
double and long result types. -/
def specExportedInterface : List CDecl :=
  [ ⟨"curl_easy_setopt_long", .curlCode, [.curlHandlePtr, .curlOption, .cLong]⟩
  , ⟨"curl_easy_setopt_string", .curlCode, [.curlHandlePtr, .curlOption, .constCharPtr]⟩
  , ⟨"curl_easy_setopt_pointer", .curlCode, [.curlHandlePtr, .curlOption, .voidPtr]⟩
  , ⟨"curl_easy_setopt_int64", .curlCode, [.curlHandlePtr, .curlOption, .curlOffT]⟩
  , ⟨"curl_easy_setopt_write_callback", .curlCode, [.curlHandlePtr, .curlOption, .writeCallbackPtr]⟩
  , ⟨"curl_easy_setopt_header_callback", .curlCode, [.curlHandlePtr, .curlOption, .writeCallbackPtr]⟩
  , ⟨"curl_easy_setopt_progress_callback", .curlCode, [.curlHandlePtr, .curlOption, .progressCallbackPtr]⟩
  , ⟨"curl_easy_getinfo_double", .curlCode, [.curlHandlePtr, .curlInfo, .doublePtr]⟩
  , ⟨"curl_easy_getinfo_long", .curlCode, [.curlHandlePtr, .curlInfo, .longPtr]⟩ ]

/-- A concrete library behavior over the world `Nat`, used to evaluate
the theorems below at concrete inputs: `easy_setopt` answers with code
`option + w` and steps the world by one, `easy_getinfo` answers with
code `info` and steps the world by two. -/
def demoLib : CurlLib Nat where
  easy_setopt := fun _ option _ w => some (option + w, w + 1)
  easy_getinfo := fun _ info _ w => some (info, w + 2)

/-- A second concrete library behavior that agrees with `demoLib` on
`easy_setopt` but answers `easy_getinfo` differently. -/
def demoLib2 : CurlLib Nat where
  easy_setopt := fun _ option _ w => some (option + w, w + 1)
  easy_getinfo := fun _ info _ w => some (info + 1, w)

/-- The run outcome of `curl_easy_setopt_long 1 2 3` against `demoLib`
from shim state 5 and world 10. -/
def demoRunSetopt : RunResult Nat Nat :=
  ⟨12, 5, 11, [Event.setoptCall 1 2 (.vLong 3)]⟩

/-- The run outcome of `curl_easy_getinfo_long 1 4 9` against `demoLib`
from shim state 7 and world 10. -/
def demoRunGetinfo : RunResult Nat Nat :=
  ⟨4, 7, 12, [Event.getinfoCall 1 4 9]⟩

/- Helper lemmas shared by the claim theorems. -/

theorem exec_code_eq_delegate_code {S W : Type} (lib : CurlLib W) (s : S) (w : W)
    (b : Body) :
    (exec lib s w b).map RunResult.code = (delegate lib w b).map Prod.fst := by
  cases h : delegate lib w b <;> simp [exec, h]

theorem exec_code_world_eq_delegate {S W : Type} (lib : CurlLib W) (s : S) (w : W)
    (b : Body) :
    (exec lib s w b).map (fun r => (r.code, r.world)) = delegate lib w b := by
  cases h : delegate lib w b <;> simp [exec, h]

theorem exec_trace_eq_callEvent {S W : Type} (lib : CurlLib W) (s : S) (w : W)
    (b : Body) :
    (exec lib s w b).map RunResult.trace
      = (delegate lib w b).map (fun _ => [callEvent b]) := by
  cases h : delegate lib w b <;> simp [exec, h]

theorem exec_some_elim {S W : Type} (lib : CurlLib W) (s : S) (w : W)
    (b : Body) (r : RunResult S W) (h : exec lib s w b = some r) :
    delegate lib w b = some (r.code, r.world) ∧ r.shim = s ∧ r.trace = [callEvent b] := by
  cases hd : delegate lib w b with
  | none => simp [exec, hd] at h
  | some cw =>
    simp [exec, hd] at h
    subst h
    simp

/-- C1: each of the seven setopt forwarders returns, for every session
handle, option identifier and value of its type, exactly the CURLcode
that the underlying generic `curl_easy_setopt` call returns for the
same handle, option and value. -/
theorem setopt_forwarders_return_underlying_code {S W : Type} (lib : CurlLib W)
    (s : S) (w : W) (curl option : Nat) (lv ov : Int) (sp pp wcb hcb pcb : Nat) :
    (exec lib s w (curl_easy_setopt_long curl option lv)).map RunResult.code
        = (lib.easy_setopt curl option (.vLong lv) w).map Prod.fst
    ∧ (exec lib s w (curl_easy_setopt_string curl option sp)).map RunResult.code
        = (lib.easy_setopt curl option (.vConstCharPtr sp) w).map Prod.fst
    ∧ (exec lib s w (curl_easy_setopt_pointer curl option pp)).map RunResult.code
        = (lib.easy_setopt curl option (.vVoidPtr pp) w).map Prod.fst
    ∧ (exec lib s w (curl_easy_setopt_int64 curl option ov)).map RunResult.code
        = (lib.easy_setopt curl option (.vOffT ov) w).map Prod.fst
    ∧ (exec lib s w (curl_easy_setopt_write_callback curl option wcb)).map RunResult.code
        = (lib.easy_setopt curl option (.vWriteFnPtr wcb) w).map Prod.fst
    ∧ (exec lib s w (curl_easy_setopt_header_callback curl option hcb)).map RunResult.code
        = (lib.easy_setopt curl option (.vWriteFnPtr hcb) w).map Prod.fst
    ∧ (exec lib s w (curl_easy_setopt_progress_callback curl option pcb)).map RunResult.code
        = (lib.easy_setopt curl option (.vProgressFnPtr pcb) w).map Prod.fst :=
  ⟨exec_code_eq_delegate_code lib s w _, exec_code_eq_delegate_code lib s w _,
   exec_code_eq_delegate_code lib s w _, exec_code_eq_delegate_code lib s w _,
   exec_code_eq_delegate_code lib s w _, exec_code_eq_delegate_code lib s w _,
   exec_code_eq_delegate_code lib s w _⟩

/-- C2: each of the two getinfo forwarders hands the destination
location to `curl_easy_getinfo` unchanged (the delegated call in the
trace carries exactly the given destination), returns exactly the
status code the underlying call returns, and leaves the world — hence
the value stored at the destination — exactly as the underlying call
leaves it. -/
theorem getinfo_forwarders_pass_through {S W : Type} (lib : CurlLib W)
    (s : S) (w : W) (curl info dest dest2 : Nat) :
    (exec lib s w (curl_easy_getinfo_double curl info dest)).map (fun r => (r.code, r.world))
        = lib.easy_getinfo curl info dest w
    ∧ (exec lib s w (curl_easy_getinfo_double curl info dest)).map RunResult.trace
        = (lib.easy_getinfo curl info dest w).map (fun _ => [Event.getinfoCall curl info dest])
    ∧ (exec lib s w (curl_easy_getinfo_long curl info dest2)).map (fun r => (r.code, r.world))
        = lib.easy_getinfo curl info dest2 w
    ∧ (exec lib s w (curl_easy_getinfo_long curl info dest2)).map RunResult.trace
        = (lib.easy_getinfo curl info dest2 w).map (fun _ => [Event.getinfoCall curl info dest2]) :=
  ⟨exec_code_world_eq_delegate lib s w _, exec_trace_eq_callEvent lib s w _,
   exec_code_world_eq_delegate lib s w _, exec_trace_eq_callEvent lib s w _⟩

/-- C3: for all nine forwarders and every input, the delegated call in
any terminating run carries exactly the typed parameter value the
forwarder received — no validation and no transformation is applied on
the way to the variadic call. -/
theorem forwarders_pass_arguments_unchanged {S W : Type} (lib : CurlLib W)
    (s : S) (w : W) (curl option info : Nat) (lv ov : Int)
    (sp pp wcb hcb pcb dd ld : Nat) :
    (exec lib s w (curl_easy_setopt_long curl option lv)).map RunResult.trace
        = (lib.easy_setopt curl option (.vLong lv) w).map
            (fun _ => [Event.setoptCall curl option (.vLong lv)])
    ∧ (exec lib s w (curl_easy_setopt_string curl option sp)).map RunResult.trace
        = (lib.easy_setopt curl option (.vConstCharPtr sp) w).map
            (fun _ => [Event.setoptCall curl option (.vConstCharPtr sp)])
    ∧ (exec lib s w (curl_easy_setopt_pointer curl option pp)).map RunResult.trace
        = (lib.easy_setopt curl option (.vVoidPtr pp) w).map
            (fun _ => [Event.setoptCall curl option (.vVoidPtr pp)])
    ∧ (exec lib s w (curl_easy_setopt_int64 curl option ov)).map RunResult.trace
        = (lib.easy_setopt curl option (.vOffT ov) w).map
            (fun _ => [Event.setoptCall curl option (.vOffT ov)])
    ∧ (exec lib s w (curl_easy_setopt_write_callback curl option wcb)).map RunResult.trace
        = (lib.easy_setopt curl option (.vWriteFnPtr wcb) w).map
            (fun _ => [Event.setoptCall curl option (.vWriteFnPtr wcb)])
    ∧ (exec lib s w (curl_easy_setopt_header_callback curl option hcb)).map RunResult.trace
        = (lib.easy_setopt curl option (.vWriteFnPtr hcb) w).map
            (fun _ => [Event.setoptCall curl option (.vWriteFnPtr hcb)])
    ∧ (exec lib s w (curl_easy_setopt_progress_callback curl option pcb)).map RunResult.trace
        = (lib.easy_setopt curl option (.vProgressFnPtr pcb) w).map
            (fun _ => [Event.setoptCall curl option (.vProgressFnPtr pcb)])
    ∧ (exec lib s w (curl_easy_getinfo_double curl info dd)).map RunResult.trace
        = (lib.easy_getinfo curl info dd w).map
            (fun _ => [Event.getinfoCall curl info dd])
    ∧ (exec lib s w (curl_easy_getinfo_long curl info ld)).map RunResult.trace
        = (lib.easy_getinfo curl info ld w).map
            (fun _ => [Event.getinfoCall curl info ld]) :=
  ⟨exec_trace_eq_callEvent lib s w _, exec_trace_eq_callEvent lib s w _,
   exec_trace_eq_callEvent lib s w _, exec_trace_eq_callEvent lib s w _,
   exec_trace_eq_callEvent lib s w _, exec_trace_eq_callEvent lib s w _,
   exec_trace_eq_callEvent lib s w _, exec_trace_eq_callEvent lib s w _,
   exec_trace_eq_callEvent lib s w _⟩

/-- C4: whenever a run of any forwarder body returns a status code,
that code is exactly the code the single delegated library call
returned for it — the layer never returns a code the delegated call
did not return, introduces no error kind of its own, and performs no
retry, remapping or interpretation. -/
theorem forwarders_propagate_status_verbatim {S W : Type} (lib : CurlLib W)
    (s : S) (w : W) (b : Body) (r : RunResult S W) (h : exec lib s w b = some r) :
    delegate lib w b = some (r.code, r.world) :=
  (exec_some_elim lib s w b r h).1

/-- Witness for C4: a concrete run of `curl_easy_setopt_long` against
`demoLib` returns code 12 in world 11, which is exactly what the
delegated call returned. -/
theorem forwarders_propagate_status_verbatim_witness :
    delegate demoLib 10 (curl_easy_setopt_long 1 2 3)
      = some (demoRunSetopt.code, demoRunSetopt.world) :=
  forwarders_propagate_status_verbatim demoLib (5 : Nat) 10
    (curl_easy_setopt_long 1 2 3) demoRunSetopt rfl

/-- C5: in any terminating run of any forwarder body, the shim layer's
own state is returned untouched, the trace consists of exactly the one
delegated library call, the resulting code and world are exactly those
of that single call, and the observable outcome does not depend on the
shim layer's state at all. -/
theorem forwarders_single_delegation_frame {S W : Type} (lib : CurlLib W)
    (s1 s2 : S) (w : W) (b : Body) (r : RunResult S W) (h : exec lib s1 w b = some r) :
    r.shim = s1
    ∧ r.trace = [callEvent b]
    ∧ (callEvent b).isDelegatedCall = true
    ∧ delegate lib w b = some (r.code, r.world)
    ∧ (exec lib s2 w b).map (fun q => (q.code, q.world, q.trace))
        = (exec lib s1 w b).map (fun q => (q.code, q.world, q.trace)) := by
  obtain ⟨hd, hs, ht⟩ := exec_some_elim lib s1 w b r h
  refine ⟨hs, ht, ?_, hd, ?_⟩
  · cases b <;> rfl
  · cases hdc : delegate lib w b <;> simp [exec, hdc]

/-- Witness for C5: the concrete run of `curl_easy_setopt_long 1 2 3`
against `demoLib` from shim state 5, compared with the run from shim
state 6. -/
theorem forwarders_single_delegation_frame_witness :
    demoRunSetopt.shim = 5
    ∧ demoRunSetopt.trace = [callEvent (curl_easy_setopt_long 1 2 3)]
    ∧ (callEvent (curl_easy_setopt_long 1 2 3)).isDelegatedCall = true
    ∧ delegate demoLib 10 (curl_easy_setopt_long 1 2 3)
        = some (demoRunSetopt.code, demoRunSetopt.world)
    ∧ (exec demoLib (6 : Nat) 10 (curl_easy_setopt_long 1 2 3)).map
          (fun q => (q.code, q.world, q.trace))
        = (exec demoLib (5 : Nat) 10 (curl_easy_setopt_long 1 2 3)).map
          (fun q => (q.code, q.world, q.trace)) :=
  forwarders_single_delegation_frame demoLib 5 6 10
    (curl_easy_setopt_long 1 2 3) demoRunSetopt rfl

/-- C6: the exported interface is exactly the nine fixed-signature
functions the spec lists — the header declarations, the source
definitions, and the spec's enumerated set coincide, there are nine of
them, and no two are the same entry point. -/
theorem exported_interface_exactly_nine :
    curlShimsHeaderDecls.length = 9
    ∧ curlShimsSourceDefs = curlShimsHeaderDecls
    ∧ curlShimsHeaderDecls = specExportedInterface
    ∧ curlShimsHeaderDecls.Nodup := by
  refine ⟨rfl, rfl, rfl, ?_⟩
  decide

/-- C7: two invocations of the same forwarder body with the same
arguments, the same starting world and shim state, and wrapped
libraries that behave the same on the delegated call, perform the
identical delegation and return the identical result — there is no
hidden state of this layer for the outcome to depend on. -/
theorem forwarders_deterministic {S W : Type} (lib1 lib2 : CurlLib W)
    (s : S) (w : W) (b : Body) (h : delegate lib1 w b = delegate lib2 w b) :
    exec lib1 s w b = exec lib2 s w b := by
  simp [exec, h]

/-- Witness for C7: `demoLib` and `demoLib2` behave the same on the
setopt call of `curl_easy_setopt_pointer 1 2 3`, so the two runs
coincide. -/
theorem forwarders_deterministic_witness :
    exec demoLib (0 : Nat) 10 (curl_easy_setopt_pointer 1 2 3)
      = exec demoLib2 (0 : Nat) 10 (curl_easy_setopt_pointer 1 2 3) :=
  forwarders_deterministic demoLib demoLib2 (0 : Nat) 10
    (curl_easy_setopt_pointer 1 2 3) rfl

/-- C8: no run of any forwarder body performs a synchronization,
blocking, or shared-mutable-resource operation: its trace contains no
such event, and consists of a single operation (the delegated call). -/
theorem forwarders_no_sync_no_shared {S W : Type} (lib : CurlLib W)
    (s : S) (w : W) (b : Body) (r : RunResult S W) (h : exec lib s w b = some r) :
    r.trace.all (fun e => !(Event.isSyncOrShared e)) = true ∧ r.trace.length = 1 := by
  obtain ⟨-, -, ht⟩ := exec_some_elim lib s w b r h
  rw [ht]
  refine ⟨?_, rfl⟩
  cases b <;> rfl

/-- Witness for C8: the trace of the concrete run of
`curl_easy_getinfo_long 1 4 9` against `demoLib` has no
synchronization or shared-resource event and length one. -/
theorem forwarders_no_sync_no_shared_witness :
    demoRunGetinfo.trace.all (fun e => !(Event.isSyncOrShared e)) = true
    ∧ demoRunGetinfo.trace.length = 1 :=
  forwarders_no_sync_no_shared demoLib (7 : Nat) 10
    (curl_easy_getinfo_long 1 4 9) demoRunGetinfo rfl

/-- C9: the write-callback and header-callback forwarders are
extensionally equal: for every handle, option, and callback pointer of
the shared C signature they build the same delegated call, so every
execution of the two coincides and the distinction is only the name. -/
theorem write_and_header_callback_forwarders_equal :
    (∀ (curl option callback : Nat),
        curl_easy_setopt_write_callback curl option callback
          = curl_easy_setopt_header_callback curl option callback)
    ∧ ∀ (S W : Type) (lib : CurlLib W) (s : S) (w : W) (curl option callback : Nat),
        exec lib s w (curl_easy_setopt_write_callback curl option callback)
          = exec lib s w (curl_easy_setopt_header_callback curl option callback) :=
  ⟨fun _ _ _ => rfl, fun _ _ _ _ _ _ _ _ => rfl⟩

/-- C10: every forwarder body is a loop-free single call, so a run
terminates exactly when its one delegated call terminates; this holds
for every input, including the all-NULL instance (handle 0, option 0,
value 0), since the layer checks nothing. -/
theorem forwarders_terminate_with_delegate {S W : Type} (lib : CurlLib W)
    (s : S) (w : W) (b : Body) :
    (exec lib s w b).isSome = (delegate lib w b).isSome
    ∧ (exec lib s w (curl_easy_setopt_long 0 0 0)).isSome
        = (lib.easy_setopt 0 0 (.vLong 0) w).isSome := by
  constructor
  · cases h : delegate lib w b <;> simp [exec, h]
  · cases h : lib.easy_setopt 0 0 (.vLong 0) w <;>
      simp [exec, delegate, curl_easy_setopt_long, h]

end PostKit.CurlShims
